import Mathlib

/-!
Verification development for the BWT water-softener polling client
(`custom_components/bwt/bwt_client.py` and `custom_components/bwt/sensor.py`).

The Python code is shallowly embedded: JSON/Python values become the

inductive `PyVal`, Python runtime faults become `Except PyErr`, and the
HTTP layer is an explicit environment of responses.  The client state is
the pair of the stored cookie set and the `is_authenticated` flag.
-/

/-- Embedding of the JSON-shaped Python values the client manipulates. -/
inductive PyVal where
  | null
  | bool (b : Bool)
  | int (n : Int)
  | str (s : String)
  | list (xs : List PyVal)
  | dict (fs : List (String × PyVal))

/-- The Python runtime faults that the client code can raise. -/
inductive PyErr where
  | typeError
  | attributeError
  | indexError
  | keyError
deriving DecidableEq

/-- Python truthiness (`bool(v)`) for the embedded values. -/
def PyVal.truthy : PyVal → Bool
  | .null => false
  | .bool b => b
  | .int n => n != 0
  | .str s => s != ""
  | .list xs => !xs.isEmpty
  | .dict fs => !fs.isEmpty

/-- Python `v == "k"` where the right operand is a string literal:
only a string with the same contents compares equal. -/
def PyVal.eqStr (v : PyVal) (k : String) : Bool :=
  match v with
  | .str s => s == k
  | _ => false

/-- First-match lookup in an embedded Python dict. -/
def dictFind (fs : List (String × PyVal)) (k : String) : Option PyVal :=
  match fs.find? (fun p => p.1 == k) with
  | Option.some p => Option.some p.2
  | Option.none => Option.none

/-- Lookup in the fields of a dict value, `Option.none` when the value is
not a dict or the key is absent. -/
def PyVal.lookupKey (v : PyVal) (k : String) : Option PyVal :=
  match v with
  | .dict fs => dictFind fs k
  | _ => Option.none

/-- Python `"k" in v`: key membership for dicts, element membership for
lists, substring test for strings, `TypeError` otherwise. -/
def pyContains (k : String) (v : PyVal) : Except PyErr Bool :=
  match v with
  | .dict fs => .ok (fs.any (fun p => p.1 == k))
  | .list xs => .ok (xs.any (fun x => x.eqStr k))
  | .str s => .ok ((s.splitOn k).length != 1)
  | _ => .error .typeError

/-- Python `v.get(k, dflt)`: defaulted dict lookup, `AttributeError` when
the receiver is not a dict. -/
def pyGet (v : PyVal) (k : String) (dflt : PyVal) : Except PyErr PyVal :=
  match v with
  | .dict fs => .ok ((dictFind fs k).getD dflt)
  | _ => .error .attributeError

/-- Index of the first element of `codes` equal to the string `k`,
`-1` when no element matches: `codes.index(k) if k in codes else -1`
(bwt_client.py lines 125-128). -/
def codeIdx (codes : List PyVal) (k : String) : Int :=
  match codes with
  | [] => -1
  | c :: cs =>
    if c.eqStr k then 0
    else
      match codeIdx cs k with
      | .ofNat n => .ofNat (n + 1)
      | .negSucc m => .negSucc m

/-- Python `codes.index(k) if k in codes else -1` evaluated on an
arbitrary value for `codes`: first-occurrence index or `-1` for lists,
substring position for strings, the appropriate fault otherwise. -/
def pyIndexOr (codes : PyVal) (k : String) : Except PyErr Int :=
  match codes with
  | .list xs => .ok (codeIdx xs k)
  | .str s =>
      if (s.splitOn k).length != 1 then .ok (((s.splitOn k).headD "").length)
      else .ok (-1)
  | .dict fs => if fs.any (fun p => p.1 == k) then .error .attributeError else .ok (-1)
  | _ => .error .typeError

/-- Zero-based list indexing, `IndexError` past the end (Python list
subscript with a non-negative index). -/
def listIndex : List PyVal → Nat → Except PyErr PyVal
  | [], _ => .error .indexError
  | x :: _, 0 => .ok x
  | _ :: xs, n + 1 => listIndex xs n

/-- Python subscript `v[i]` with an integer index: list and string
indexing with one negative-index wraparound (`v[i]` is `v[len + i]` for
`i < 0`, `IndexError` when still negative), `KeyError` for the
string-keyed dicts of this code, `TypeError` otherwise. -/
def pySubscript (v : PyVal) (i : Int) : Except PyErr PyVal :=
  match v with
  | .list xs =>
      match i with
      | .ofNat n => listIndex xs n
      | .negSucc k =>
          if k < xs.length then listIndex xs (xs.length - (k + 1))
          else .error .indexError
  | .str s =>
      match i with
      | .ofNat n =>
          if n < s.length then .ok (.str (String.mk [s.toList.getD n ' ']))
          else .error .indexError
      | .negSucc k =>
          if k < s.length then
            .ok (.str (String.mk [s.toList.getD (s.length - (k + 1)) ' ']))
          else .error .indexError
  | .dict _ => .error .keyError
  | _ => .error .typeError

/-- Python iteration over a value (the `for line in lines`
comprehension): list elements, string characters, dict keys. -/
def pyIter : PyVal → Except PyErr (List PyVal)
  | .list xs => .ok xs
  | .str s => .ok (s.toList.map (fun c => .str (String.mk [c])))
  | .dict fs => .ok (fs.map (fun p => .str p.1))
  | _ => .error .typeError

/-- `line[idx] if idx >= 0 else dflt` (bwt_client.py lines 136-139). -/
def fieldAt (line : PyVal) (idx : Int) (dflt : PyVal) : Except PyErr PyVal :=
  if 0 ≤ idx then pySubscript line idx else .ok dflt

/-- The five measured values extracted from one row, in the evaluation
order of the source's dict literal (date first, then the four mapped
columns). -/
def extractVals (wi ri poi sai : Int) (line : PyVal) :
    Except PyErr (PyVal × PyVal × PyVal × PyVal × PyVal) :=
  match pySubscript line 0 with
  | .error e => .error e
  | .ok d =>
  match fieldAt line wi (.int 0) with
  | .error e => .error e
  | .ok w =>
  match fieldAt line ri (.int 0) with
  | .error e => .error e
  | .ok rg =>
  match fieldAt line poi (.bool false) with
  | .error e => .error e
  | .ok po =>
  match fieldAt line sai (.bool false) with
  | .error e => .error e
  | .ok sa => .ok (d, w, rg, po, sa)

/-- One history entry (bwt_client.py lines 143-149). -/
def rowEntry (wi ri poi sai : Int) (line : PyVal) : Except PyErr PyVal :=
  match extractVals wi ri poi sai line with
  | .error e => .error e
  | .ok (d, w, rg, po, sa) =>
      .ok (.dict [("date", d), ("water_consumption", w),
        ("regeneration_count", rg), ("power_outage", po), ("salt_alarm", sa)])

/-- Left-to-right effectful map, the list comprehension over `lines`. -/
def mapRows (f : PyVal → Except PyErr PyVal) : List PyVal → Except PyErr (List PyVal)
  | [] => .ok []
  | x :: xs =>
    match f x with
    | .error e => .error e
    | .ok y =>
      match mapRows f xs with
      | .error e => .error e
      | .ok ys => .ok (y :: ys)

/-- The `if latest_line:` tail of `_process_device_data`
(bwt_client.py lines 133-152): snapshot fields from the latest row, the
device-level extras, and the history comprehension. -/
def processLatest (data : PyVal) (wi ri poi sai : Int) (lines latest : PyVal) :
    Except PyErr PyVal :=
  if latest.truthy = false then .ok (.dict []) else
  match extractVals wi ri poi sai latest with
  | .error e => .error e
  | .ok (d, w, rg, po, sa) =>
  match pyGet data "online" (.bool false) with
  | .error e => .error e
  | .ok onl =>
  match pyGet data "connected" (.bool false) with
  | .error e => .error e
  | .ok conn =>
  match pyGet data "lastSeenDateTime" (.str "") with
  | .error e => .error e
  | .ok lastSeen =>
  match pyIter lines with
  | .error e => .error e
  | .ok rows =>
  match mapRows (rowEntry wi ri poi sai) rows with
  | .error e => .error e
  | .ok hist =>
    .ok (.dict [("date", d), ("water_consumption", w), ("regeneration_count", rg),
      ("power_outage", po), ("salt_alarm", sa), ("online", onl),
      ("connected", conn), ("last_seen", lastSeen), ("history", PyVal.list hist)])

/-- `BWTClient._process_device_data` (bwt_client.py lines 111-152),
step for step: the guard on line 113 with its short-circuit evaluation
order, the defaulted extraction of `codes`/`lines`, the four sentinel
index computations, `lines[0]`, and the snapshot construction. -/
def _process_device_data (data : PyVal) : Except PyErr PyVal :=
  if data.truthy = false then .ok (.dict []) else
  match pyContains "deviceDataHistory" data with
  | .error e => .error e
  | .ok hasDDH =>
  if hasDDH = false then .ok (.dict []) else
  match pyGet data "deviceDataHistory" (.dict []) with
  | .error e => .error e
  | .ok hist0 =>
  match pyContains "lines" hist0 with
  | .error e => .error e
  | .ok hasLines =>
  if hasLines = false then .ok (.dict []) else
  match pyGet data "deviceDataHistory" (.dict []) with
  | .error e => .error e
  | .ok history =>
  match pyGet history "codes" (.list []) with
  | .error e => .error e
  | .ok codes =>
  match pyGet history "lines" (.list []) with
  | .error e => .error e
  | .ok lines =>
  if lines.truthy = false then .ok (.dict []) else
  match pyIndexOr codes "waterUse" with
  | .error e => .error e
  | .ok wi =>
  match pyIndexOr codes "regenCount" with
  | .error e => .error e
  | .ok ri =>
  match pyIndexOr codes "powerOutage" with
  | .error e => .error e
  | .ok poi =>
  match pyIndexOr codes "saltAlarm" with
  | .error e => .error e
  | .ok sai =>
  match pySubscript lines 0 with
  | .error e => .error e
  | .ok latest => processLatest data wi ri poi sai lines latest

/-- A well-shaped vendor dataset: a dict holding `deviceDataHistory`
with a `codes` array and a `lines` array of rows. -/
def mkDataset (codes : List PyVal) (rows : List (List PyVal)) : PyVal :=
  .dict [("deviceDataHistory", .dict
    [("codes", .list codes), ("lines", .list (rows.map PyVal.list))])]

/-- The state a `BWTClient` instance carries across calls: the stored
cookie set and the `is_authenticated` flag (`__init__` starts both
empty/false). -/
structure ClientState where
  cookies : List (String × String)
  is_authenticated : Bool
deriving DecidableEq

/-- `BWTClient.__init__` (bwt_client.py lines 17-24): no cookies, not
authenticated. -/
def initClientState : ClientState := ⟨[], false⟩

/-- The vendor's answer to one login POST: a network fault (any raised
exception) or a final response with its status and cookie set. -/
inductive LoginResult where
  | netError
  | resp (status : Nat) (cookies : List (String × String))

/-- The vendor's answer to one data GET: a network fault, or a final
response with its status and JSON body (`Option.none` = body that fails
to parse as JSON). -/
inductive GetResult where
  | netError
  | resp (status : Nat) (body : Option PyVal)

/-- The network environment of one `fetch_data` call: the responses to
the successive login POSTs and data GETs, indexed by call order. -/
structure Env where
  logins : Nat → LoginResult
  gets : Nat → GetResult

/-- Observable network actions of the client, in order: a login POST, or
a data GET carrying the cookie set attached to it. -/
inductive Event where
  | loginCall
  | getCall (cookies : List (String × String))
deriving DecidableEq

/-- `BWTClient.login` (bwt_client.py lines 38-72): any exception is
caught and reported as `false`; a non-200 status reports `false` leaving
the state untouched; on a 200 response the stored cookie set is replaced
by the response's cookies first, and only a non-empty cookie set then
marks the session authenticated and reports `true`. -/
def login (st : ClientState) (r : LoginResult) : Bool × ClientState :=
  match r with
  | .netError => (false, st)
  | .resp status cs =>
    if status ≠ 200 then (false, st)
    else if !cs.isEmpty then (true, ⟨cs, true⟩)
    else (false, ⟨cs, st.is_authenticated⟩)

/-- The enclosing `except` clause of `fetch_data`: a fault from the
normalizer is caught and converted to the empty result. -/
def catchEmpty (x : Except PyErr PyVal) : PyVal :=
  match x with
  | .ok v => v
  | .error _ => .dict []

/-- `return self._process_device_data(data.get('dataset', {}))`
(bwt_client.py line 105) together with the enclosing `except` clause: a
non-dict body faults on `.get`, and any fault in the normalizer is
caught; both yield the empty result. -/
def normalizeBody (body : PyVal) : PyVal :=
  match body with
  | .dict fs => catchEmpty (_process_device_data ((dictFind fs "dataset").getD (.dict [])))
  | _ => .dict []

/-- Result of one `fetch_data` call: the returned mapping, the client
state afterwards, and the network actions performed. -/
structure FetchOut where
  result : PyVal
  state : ClientState
  events : List Event

/-- The `try` body of `BWTClient.fetch_data` (bwt_client.py lines
83-109): one GET with the stored cookies; on a non-200 status one
re-login (result ignored) and one retry with the then-stored cookies; a
second non-200, a network fault, or an unparsable body yields the empty
result; a 200 body is normalized.  `li` is the index of the next login
call in the environment. -/
def fetchCore (st : ClientState) (env : Env) (li : Nat) (ev0 : List Event) : FetchOut :=
  match env.gets 0 with
  | .netError => ⟨.dict [], st, ev0 ++ [.getCall st.cookies]⟩
  | .resp s1 j1 =>
    if s1 ≠ 200 then
      match env.gets 1 with
      | .netError =>
          ⟨.dict [], (login st (env.logins li)).2,
            ev0 ++ [.getCall st.cookies, .loginCall,
              .getCall (login st (env.logins li)).2.cookies]⟩
      | .resp s2 j2 =>
        if s2 ≠ 200 then
          ⟨.dict [], (login st (env.logins li)).2,
            ev0 ++ [.getCall st.cookies, .loginCall,
              .getCall (login st (env.logins li)).2.cookies]⟩
        else
          match j2 with
          | Option.none =>
              ⟨.dict [], (login st (env.logins li)).2,
                ev0 ++ [.getCall st.cookies, .loginCall,
                  .getCall (login st (env.logins li)).2.cookies]⟩
          | Option.some body =>
              ⟨normalizeBody body, (login st (env.logins li)).2,
                ev0 ++ [.getCall st.cookies, .loginCall,
                  .getCall (login st (env.logins li)).2.cookies]⟩
    else
      match j1 with
      | Option.none => ⟨.dict [], st, ev0 ++ [.getCall st.cookies]⟩
      | Option.some body => ⟨normalizeBody body, st, ev0 ++ [.getCall st.cookies]⟩

/-- `BWTClient.fetch_data` (bwt_client.py lines 74-109): when the session
is not authenticated, one login first; a failed pre-login returns the
empty result without touching the data endpoint; otherwise the GET /
retry sequence of `fetchCore`. -/
def fetch_data (st : ClientState) (env : Env) : FetchOut :=
  if st.is_authenticated then fetchCore st env 0 []
  else
    if (login st (env.logins 0)).1 then
      fetchCore (login st (env.logins 0)).2 env 1 [Event.loginCall]
    else ⟨.dict [], (login st (env.logins 0)).2, [Event.loginCall]⟩

/-- Round to two decimal places as the Python `round(x, 2)` calls of the
sensor layer do, modelled on exact rationals with round-half-up. -/
def round2 (q : ℚ) : ℚ := ((round (q * 100) : ℤ) : ℚ) / 100

/-- `BWTWaterConsumptionCubicMeterSensor.native_value` (sensor.py lines
149-157): liters divided by 1000, rounded to 2 decimals. -/
def cubic_meter_native_value (liters : ℚ) : ℚ := round2 (liters / 1000)

/-- `BWTWaterCostSensor.native_value` (sensor.py lines 176-185): the
unrounded quotient liters / 1000 times the configured price, rounded to
2 decimals. -/
def water_cost_native_value (liters price : ℚ) : ℚ :=
  round2 (liters / 1000 * price)

/-- Spec-side description of one extracted field (§4.2 step 3 of the
spec): the row value at a found column index, the type-appropriate
default at the sentinel `-1` (or out of range). -/
def specField (r : List PyVal) (i : Int) (dflt : PyVal) : PyVal :=
  match i with
  | .ofNat n => if n < r.length then r.getD n .null else dflt
  | .negSucc _ => dflt

/-- Spec-side description of one extracted row record (§4.2 steps 2-4 of
the spec): date column plus the four mapped fields with defaults. -/
def specRecord (wi ri poi sai : Int) (r : List PyVal) : PyVal :=
  .dict [("date", r.getD 0 .null),
    ("water_consumption", specField r wi (.int 0)),
    ("regeneration_count", specField r ri (.int 0)),
    ("power_outage", specField r poi (.bool false)),
    ("salt_alarm", specField r sai (.bool false))]

/-- Spec-side description of the full snapshot mapping produced from a
well-shaped dataset with a non-empty `lines` whose first row is `r0`. -/
def snapshotOf (wi ri poi sai : Int) (rows : List (List PyVal)) (r0 : List PyVal) : PyVal :=
  .dict [("date", r0.getD 0 .null),
    ("water_consumption", specField r0 wi (.int 0)),
    ("regeneration_count", specField r0 ri (.int 0)),
    ("power_outage", specField r0 poi (.bool false)),
    ("salt_alarm", specField r0 sai (.bool false)),
    ("online", .bool false), ("connected", .bool false), ("last_seen", .str ""),
    ("history", .list (rows.map (fun r => specRecord wi ri poi sai r)))]

/-- A column index fits a row: any negative sentinel, or a non-negative
index within the row's length. -/
def idxOKb (i : Int) (r : List PyVal) : Bool :=
  match i with
  | .ofNat n => decide (n < r.length)
  | .negSucc _ => true

/-- A row is long enough for the snapshot extraction: non-empty (for the
date column) and each of the four mapped indices fits. -/
def rowOKb (wi ri poi sai : Int) (r : List PyVal) : Bool :=
  !r.isEmpty && idxOKb wi r && idxOKb ri r && idxOKb poi r && idxOKb sai r

/-- The four known field identifiers with the snapshot key each feeds
and its type-appropriate default. -/
def fieldTable : List (String × String × PyVal) :=
  [("waterUse", "water_consumption", .int 0),
   ("regenCount", "regeneration_count", .int 0),
   ("powerOutage", "power_outage", .bool false),
   ("saltAlarm", "salt_alarm", .bool false)]

/-- The codes array of the spec's worked scenario. -/
def c7codes : List PyVal := [.str "date", .str "waterUse", .str "regenCount"]

/-- The two rows of the spec's worked scenario, newest first. -/
def c7rows : List (List PyVal) :=
  [[.str "2024-01-02", .int 1500, .int 3], [.str "2024-01-01", .int 1400, .int 3]]

/-- The snapshot mapping the normalizer produces on the worked scenario. -/
def c7snap : PyVal :=
  .dict [("date", .str "2024-01-02"), ("water_consumption", .int 1500),
    ("regeneration_count", .int 3), ("power_outage", .bool false),
    ("salt_alarm", .bool false), ("online", .bool false), ("connected", .bool false),
    ("last_seen", .str ""),
    ("history", .list
      [.dict [("date", .str "2024-01-02"), ("water_consumption", .int 1500),
        ("regeneration_count", .int 3), ("power_outage", .bool false),
        ("salt_alarm", .bool false)],
       .dict [("date", .str "2024-01-01"), ("water_consumption", .int 1400),
        ("regeneration_count", .int 3), ("power_outage", .bool false),
        ("salt_alarm", .bool false)]])]

/-- `login()` failure modes: a network fault, a non-200 status, or a 200
response without cookies. -/
def loginFails (r : LoginResult) : Bool :=
  match r with
  | .netError => true
  | .resp s cs => (s != 200) || cs.isEmpty

/-- A concrete JSON body used to exercise the retry path. -/
def c3Body : PyVal :=
  .dict [("dataset", mkDataset [PyVal.str "date", PyVal.str "waterUse"]
    [[PyVal.str "2024-02-01", PyVal.int 77]])]

/-- A concrete environment: re-login succeeds with a fresh cookie, the
first GET returns 403, the retry returns 200 with `c3Body`. -/
def c3Env : Env :=
  ⟨fun _ => LoginResult.resp 200 [("fresh", "1")],
   fun n => match n with
     | 0 => GetResult.resp 403 Option.none
     | _ => GetResult.resp 200 (Option.some c3Body)⟩

/-- The degenerate dataset shapes of the C8 claim: a non-dict (absent or
malformed) dataset, a missing or non-dict `deviceDataHistory`, a missing
`lines` key, or an empty `lines` array. -/
def datasetDegenerate : PyVal → Bool
  | .dict fs =>
    match dictFind fs "deviceDataHistory" with
    | Option.none => true
    | Option.some (.dict hfs) =>
      match dictFind hfs "lines" with
      | Option.none => true
      | Option.some (.list []) => true
      | Option.some _ => false
    | Option.some _ => true
  | _ => true

/-- Evaluation rule for `round2`: it returns `n / 100` whenever `n` is
the floor of `q * 100 + 1 / 2`. -/
theorem round2_eval (q : ℚ) (n : ℤ) (h1 : (n : ℚ) ≤ q * 100 + 1 / 2)
    (h2 : q * 100 + 1 / 2 < (n : ℚ) + 1) : round2 q = (n : ℚ) / 100 := by
  have h : ⌊q * 100 + 1 / 2⌋ = n := Int.floor_eq_iff.2 ⟨h1, h2⟩
  rw [round2, round_eq, h]

/-- Rounding to two decimals is idempotent. -/
theorem round2_idem (q : ℚ) : round2 (round2 q) = round2 q := by
  rw [round2, round2, round_eq]
  have h : ((round (q * 100) : ℤ) : ℚ) / 100 * 100 + 1 / 2 =
      ((round (q * 100) : ℤ) : ℚ) + 1 / 2 := by
    field_simp
  have h0 : ⌊(1 / 2 : ℚ)⌋ = 0 := Int.floor_eq_iff.2 (by norm_num)
  rw [h, Int.floor_int_add, h0, add_zero]

theorem listIndex_lt (xs : List PyVal) (n : Nat) (h : n < xs.length) :
    listIndex xs n = .ok (xs.getD n .null) := by
  induction xs generalizing n with
  | nil => simp at h
  | cons x xs ih =>
    cases n with
    | zero => rfl
    | succ m => exact ih m (by simpa using h)

theorem listIndex_ok_inv (xs : List PyVal) (n : Nat) (v : PyVal)
    (h : listIndex xs n = .ok v) : n < xs.length ∧ v = xs.getD n .null := by
  induction xs generalizing n with
  | nil => cases h
  | cons x xs ih =>
    cases n with
    | zero =>
      cases h
      exact ⟨Nat.succ_pos _, rfl⟩
    | succ m =>
      have h2 := ih m h
      exact ⟨Nat.succ_lt_succ h2.1, h2.2⟩

theorem fieldAt_list (r : List PyVal) (i : Int) (d : PyVal)
    (h : idxOKb i r = true) : fieldAt (.list r) i d = .ok (specField r i d) := by
  cases i with
  | ofNat n =>
    have hn : n < r.length := of_decide_eq_true (by simpa [idxOKb] using h)
    rw [fieldAt, if_pos (show (0 : Int) ≤ Int.ofNat n from Int.natCast_nonneg n)]
    have hx : pySubscript (PyVal.list r) (Int.ofNat n) = .ok (r.getD n .null) :=
      listIndex_lt r n hn
    rw [hx]
    simp [specField, hn]
  | negSucc k =>
    rw [fieldAt,
      if_neg (show ¬ (0 : Int) ≤ Int.negSucc k from not_le.mpr (Int.negSucc_lt_zero k))]
    rfl

theorem fieldAt_list_inv (r : List PyVal) (i : Int) (d v : PyVal)
    (h : fieldAt (.list r) i d = .ok v) : v = specField r i d := by
  cases i with
  | ofNat n =>
    rw [fieldAt, if_pos (show (0 : Int) ≤ Int.ofNat n from Int.natCast_nonneg n)] at h
    have h2 := listIndex_ok_inv r n v h
    simp [specField, h2.1, h2.2]
  | negSucc k =>
    rw [fieldAt,
      if_neg (show ¬ (0 : Int) ≤ Int.negSucc k from not_le.mpr (Int.negSucc_lt_zero k))] at h
    cases h
    rfl

theorem rowOKb_parts (wi ri poi sai : Int) (r : List PyVal)
    (h : rowOKb wi ri poi sai r = true) :
    r.isEmpty = false ∧ idxOKb wi r = true ∧ idxOKb ri r = true ∧
      idxOKb poi r = true ∧ idxOKb sai r = true := by
  simp only [rowOKb, Bool.and_eq_true, Bool.not_eq_true'] at h
  exact ⟨h.1.1.1.1, h.1.1.1.2, h.1.1.2, h.1.2, h.2⟩

theorem length_pos_of_isEmpty_false (r : List PyVal) (h : r.isEmpty = false) :
    0 < r.length := by
  cases r with
  | nil => simp at h
  | cons a as => simp

theorem extractVals_list (wi ri poi sai : Int) (r : List PyVal)
    (h : rowOKb wi ri poi sai r = true) :
    extractVals wi ri poi sai (.list r) =
      .ok (r.getD 0 .null, specField r wi (.int 0), specField r ri (.int 0),
        specField r poi (.bool false), specField r sai (.bool false)) := by
  obtain ⟨hne, hw, hri, hpo, hsa⟩ := rowOKb_parts wi ri poi sai r h
  have h0 : 0 < r.length := length_pos_of_isEmpty_false r hne
  have hd : pySubscript (PyVal.list r) 0 = .ok (r.getD 0 PyVal.null) :=
    listIndex_lt r 0 h0
  simp only [extractVals, hd, fieldAt_list r wi (.int 0) hw,
    fieldAt_list r ri (.int 0) hri, fieldAt_list r poi (.bool false) hpo,
    fieldAt_list r sai (.bool false) hsa]

theorem rowEntry_list (wi ri poi sai : Int) (r : List PyVal)
    (h : rowOKb wi ri poi sai r = true) :
    rowEntry wi ri poi sai (.list r) = .ok (specRecord wi ri poi sai r) := by
  simp only [rowEntry, extractVals_list wi ri poi sai r h, specRecord]

theorem rowEntry_list_inv (wi ri poi sai : Int) (r : List PyVal) (e : PyVal)
    (h : rowEntry wi ri poi sai (.list r) = .ok e) :
    e = specRecord wi ri poi sai r := by
  simp only [rowEntry, extractVals] at h
  cases hd : pySubscript (PyVal.list r) 0 with
  | error err =>
    simp only [hd] at h
    exact Except.noConfusion h
  | ok dv =>
    simp only [hd] at h
    cases hw : fieldAt (PyVal.list r) wi (.int 0) with
    | error err =>
      simp only [hw] at h
      exact Except.noConfusion h
    | ok wv =>
      simp only [hw] at h
      cases hri : fieldAt (PyVal.list r) ri (.int 0) with
      | error err =>
        simp only [hri] at h
        exact Except.noConfusion h
      | ok rv =>
        simp only [hri] at h
        cases hpo : fieldAt (PyVal.list r) poi (.bool false) with
        | error err =>
          simp only [hpo] at h
          exact Except.noConfusion h
        | ok pv =>
          simp only [hpo] at h
          cases hsa : fieldAt (PyVal.list r) sai (.bool false) with
          | error err =>
            simp only [hsa] at h
            exact Except.noConfusion h
          | ok sv =>
            simp only [hsa] at h
            have hdate := listIndex_ok_inv r 0 dv hd
            have hw2 := fieldAt_list_inv r wi (.int 0) wv hw
            have hri2 := fieldAt_list_inv r ri (.int 0) rv hri
            have hpo2 := fieldAt_list_inv r poi (.bool false) pv hpo
            have hsa2 := fieldAt_list_inv r sai (.bool false) sv hsa
            cases h
            rw [specRecord, hdate.2, hw2, hri2, hpo2, hsa2]

theorem mapRows_spec (wi ri poi sai : Int) (rows : List (List PyVal))
    (h : ∀ r ∈ rows, rowOKb wi ri poi sai r = true) :
    mapRows (rowEntry wi ri poi sai) (rows.map PyVal.list) =
      .ok (rows.map (fun r => specRecord wi ri poi sai r)) := by
  induction rows with
  | nil => rfl
  | cons r rs ih =>
    simp only [List.map_cons, mapRows,
      rowEntry_list wi ri poi sai r (h r (List.mem_cons_self r rs)),
      ih (fun x hx => h x (List.mem_cons_of_mem r hx))]

theorem mapRows_rowEntry_inv (wi ri poi sai : Int) (rows : List (List PyVal))
    (hs : List PyVal)
    (h : mapRows (rowEntry wi ri poi sai) (rows.map PyVal.list) = .ok hs) :
    hs = rows.map (fun r => specRecord wi ri poi sai r) := by
  induction rows generalizing hs with
  | nil =>
    simp only [List.map_nil, mapRows] at h
    cases h
    rfl
  | cons r rs ih =>
    simp only [List.map_cons, mapRows] at h
    cases he : rowEntry wi ri poi sai (PyVal.list r) with
    | error err =>
      simp only [he] at h
      exact Except.noConfusion h
    | ok y =>
      simp only [he] at h
      cases hm : mapRows (rowEntry wi ri poi sai) (rs.map PyVal.list) with
      | error err =>
        simp only [hm] at h
        exact Except.noConfusion h
      | ok ys =>
        simp only [hm] at h
        cases h
        rw [List.map_cons, rowEntry_list_inv wi ri poi sai r y he, ih ys hm]

theorem process_mk_nil (codes : List PyVal) :
    _process_device_data (mkDataset codes []) = .ok (.dict []) := rfl

theorem process_mk_cons (codes : List PyVal) (r0 : List PyVal) (rs : List (List PyVal)) :
    _process_device_data (mkDataset codes (r0 :: rs)) =
      processLatest (mkDataset codes (r0 :: rs)) (codeIdx codes "waterUse")
        (codeIdx codes "regenCount") (codeIdx codes "powerOutage")
        (codeIdx codes "saltAlarm") (.list ((r0 :: rs).map PyVal.list)) (.list r0) := rfl

theorem processLatest_mk (codes : List PyVal) (wi ri poi sai : Int)
    (r0 : List PyVal) (rs : List (List PyVal))
    (hall : ∀ r ∈ r0 :: rs, rowOKb wi ri poi sai r = true) :
    processLatest (mkDataset codes (r0 :: rs)) wi ri poi sai
      (.list ((r0 :: rs).map PyVal.list)) (.list r0) =
      .ok (snapshotOf wi ri poi sai (r0 :: rs) r0) := by
  have h0 := hall r0 (List.mem_cons_self r0 rs)
  have hne := (rowOKb_parts wi ri poi sai r0 h0).1
  have htr : ¬ ((PyVal.list r0).truthy = false) := by
    simp [PyVal.truthy, hne]
  have honl : pyGet (mkDataset codes (r0 :: rs)) "online" (.bool false) =
      .ok (.bool false) := rfl
  have hconn : pyGet (mkDataset codes (r0 :: rs)) "connected" (.bool false) =
      .ok (.bool false) := rfl
  have hlast : pyGet (mkDataset codes (r0 :: rs)) "lastSeenDateTime" (.str "") =
      .ok (.str "") := rfl
  have hiter : pyIter (.list ((r0 :: rs).map PyVal.list)) =
      .ok ((r0 :: rs).map PyVal.list) := rfl
  simp only [processLatest, if_neg htr, extractVals_list wi ri poi sai r0 h0,
    honl, hconn, hlast, hiter, mapRows_spec wi ri poi sai (r0 :: rs) hall,
    snapshotOf]

theorem process_mk_ok (codes : List PyVal) (r0 : List PyVal) (rs : List (List PyVal))
    (hall : ∀ r ∈ r0 :: rs, rowOKb (codeIdx codes "waterUse") (codeIdx codes "regenCount")
      (codeIdx codes "powerOutage") (codeIdx codes "saltAlarm") r = true) :
    _process_device_data (mkDataset codes (r0 :: rs)) =
      .ok (snapshotOf (codeIdx codes "waterUse") (codeIdx codes "regenCount")
        (codeIdx codes "powerOutage") (codeIdx codes "saltAlarm") (r0 :: rs) r0) := by
  rw [process_mk_cons]
  exact processLatest_mk codes _ _ _ _ r0 rs hall

theorem snapshotOf_ne_empty (wi ri poi sai : Int) (rows : List (List PyVal))
    (r0 : List PyVal) : snapshotOf wi ri poi sai rows r0 ≠ .dict [] := by
  simp [snapshotOf]

theorem process_no_ddh (fs : List (String × PyVal))
    (h : fs.all (fun p => !(p.1 == "deviceDataHistory")) = true) :
    _process_device_data (.dict fs) = .ok (.dict []) := by
  cases fs with
  | nil => rfl
  | cons p ps =>
    have ht : ¬ ((PyVal.dict (p :: ps)).truthy = false) := by
      simp [PyVal.truthy]
    have hany : ((p :: ps).any fun q => q.1 == "deviceDataHistory") = false := by
      simp only [List.all_eq_true, Bool.not_eq_true'] at h
      simp only [List.any_eq_false]
      intro x hx
      simpa using h x hx
    have hc : pyContains "deviceDataHistory" (.dict (p :: ps)) =
        .ok ((p :: ps).any fun q => q.1 == "deviceDataHistory") := rfl
    simp only [_process_device_data, if_neg ht, hc, hany, if_pos trivial]

theorem codeIdx_absent (codes : List PyVal) (k : String)
    (h : codes.all (fun v => !v.eqStr k) = true) : codeIdx codes k = -1 := by
  induction codes with
  | nil => rfl
  | cons c cs ih =>
    simp only [List.all_cons, Bool.and_eq_true, Bool.not_eq_true'] at h
    have ih2 := ih h.2
    rw [codeIdx, if_neg (by simp [h.1]), ih2]
    rfl

theorem process_cons_ok_inv (codes : List PyVal) (r0 : List PyVal)
    (rs : List (List PyVal)) (v : PyVal)
    (h : _process_device_data (mkDataset codes (r0 :: rs)) = .ok v)
    (hv : v ≠ .dict []) :
    ∃ hs, v.lookupKey "history" = Option.some (.list hs) ∧
      hs = (r0 :: rs).map (fun r => specRecord (codeIdx codes "waterUse")
        (codeIdx codes "regenCount") (codeIdx codes "powerOutage")
        (codeIdx codes "saltAlarm") r) := by
  rw [process_mk_cons] at h
  by_cases ht : (PyVal.list r0).truthy = false
  · rw [processLatest, if_pos ht] at h
    cases h
    exact absurd rfl hv
  · simp only [processLatest, if_neg ht] at h
    cases he : extractVals (codeIdx codes "waterUse") (codeIdx codes "regenCount")
        (codeIdx codes "powerOutage") (codeIdx codes "saltAlarm") (.list r0) with
    | error err =>
      simp only [he] at h
      exact Except.noConfusion h
    | ok q =>
      obtain ⟨d, w, rg, po, sa⟩ := q
      have honl : pyGet (mkDataset codes (r0 :: rs)) "online" (.bool false) =
          .ok (.bool false) := rfl
      have hconn : pyGet (mkDataset codes (r0 :: rs)) "connected" (.bool false) =
          .ok (.bool false) := rfl
      have hlast : pyGet (mkDataset codes (r0 :: rs)) "lastSeenDateTime" (.str "") =
          .ok (.str "") := rfl
      have hiter : pyIter (.list ((r0 :: rs).map PyVal.list)) =
          .ok ((r0 :: rs).map PyVal.list) := rfl
      simp only [he, honl, hconn, hlast, hiter] at h
      cases hm : mapRows (rowEntry (codeIdx codes "waterUse") (codeIdx codes "regenCount")
          (codeIdx codes "powerOutage") (codeIdx codes "saltAlarm"))
          ((r0 :: rs).map PyVal.list) with
      | error err =>
        simp only [hm] at h
        exact Except.noConfusion h
      | ok hs =>
        simp only [hm] at h
        cases h
        exact ⟨hs, rfl, mapRows_rowEntry_inv _ _ _ _ (r0 :: rs) hs hm⟩

/-- C1 counterexample: with `waterUse` mapped to column 1 but a row of
length 1, `_process_device_data` raises an `IndexError` instead of
returning a result, so the normalizer is not total on JSON-shaped
inputs whose rows are shorter than a mapped column index. -/
theorem c1_counterexample :
    _process_device_data (mkDataset [PyVal.str "date", PyVal.str "waterUse"]
      [[PyVal.str "2024-01-03"]]) = .error .indexError := rfl

/-- C1 (amended): the normalizer returns a result without raising for
every well-shaped dataset whose rows are non-empty and long enough for
each mapped column index, and under that proviso it returns the empty
mapping exactly when `lines` is empty; a dataset dict without the
`deviceDataHistory` key also yields the empty mapping. -/
theorem c1_total_amended :
    (∀ (codes : List PyVal) (rows : List (List PyVal)),
      (∀ r ∈ rows, rowOKb (codeIdx codes "waterUse") (codeIdx codes "regenCount")
        (codeIdx codes "powerOutage") (codeIdx codes "saltAlarm") r = true) →
      (∃ v, _process_device_data (mkDataset codes rows) = .ok v) ∧
      (_process_device_data (mkDataset codes rows) = .ok (.dict []) ↔ rows = [])) ∧
    (∀ fs : List (String × PyVal),
      fs.all (fun p => !(p.1 == "deviceDataHistory")) = true →
      _process_device_data (.dict fs) = .ok (.dict [])) := by
  constructor
  · intro codes rows hall
    cases rows with
    | nil =>
      refine ⟨⟨.dict [], process_mk_nil codes⟩, ?_⟩
      simp [process_mk_nil codes]
    | cons r0 rs =>
      have hok := process_mk_ok codes r0 rs hall
      refine ⟨⟨_, hok⟩, ?_, ?_⟩
      · intro he
        rw [hok] at he
        injection he with h2
        exact absurd h2 (snapshotOf_ne_empty _ _ _ _ _ _)
      · intro he
        exact absurd he (List.cons_ne_nil r0 rs)
  · intro fs h
    exact process_no_ddh fs h

/-- C1 witness: a concrete well-shaped dataset with fitting rows, on
which the amended theorem yields a successful non-empty result. -/
theorem c1_witness :
    (∃ v, _process_device_data (mkDataset [PyVal.str "date", PyVal.str "waterUse"]
      [[PyVal.str "2024-01-02", PyVal.int 5]]) = .ok v) ∧
    (_process_device_data (mkDataset [PyVal.str "date", PyVal.str "waterUse"]
      [[PyVal.str "2024-01-02", PyVal.int 5]]) = .ok (.dict []) ↔
      [[PyVal.str "2024-01-02", PyVal.int 5]] = ([] : List (List PyVal))) :=
  c1_total_amended.1 [PyVal.str "date", PyVal.str "waterUse"]
    [[PyVal.str "2024-01-02", PyVal.int 5]] (by decide)

/-- C6 counterexample: a dataset whose codes array lacks `saltAlarm`
(and the other flags) on which normalization nevertheless raises an
`IndexError`, because `regenCount` is mapped past the row's length. -/
theorem c6_counterexample :
    ([PyVal.str "date", PyVal.str "regenCount"].all
      (fun v => !v.eqStr "saltAlarm")) = true ∧
    _process_device_data (mkDataset [PyVal.str "date", PyVal.str "regenCount"]
      [[PyVal.str "2024-01-05"]]) = .error .indexError :=
  ⟨rfl, rfl⟩

/-- C6 (amended): when one of the four known field identifiers is absent
from the codes array, normalization substitutes that field's
type-appropriate default in the snapshot and in every history entry and
raises no error, provided every row is a non-empty list long enough for
each column that is present. -/
theorem c6_missing_code_defaults_amended :
    ∀ code key dflt, (code, key, dflt) ∈ fieldTable →
    ∀ (codes : List PyVal) (r0 : List PyVal) (rs : List (List PyVal)),
    (∀ r ∈ r0 :: rs, rowOKb (codeIdx codes "waterUse") (codeIdx codes "regenCount")
      (codeIdx codes "powerOutage") (codeIdx codes "saltAlarm") r = true) →
    codes.all (fun v => !v.eqStr code) = true →
    ∃ v, _process_device_data (mkDataset codes (r0 :: rs)) = .ok v ∧
      v.lookupKey key = Option.some dflt ∧
      ∃ hs, v.lookupKey "history" = Option.some (.list hs) ∧
        ∀ e ∈ hs, e.lookupKey key = Option.some dflt := by
  intro code key dflt hmem codes r0 rs hall habs
  have habsIdx := codeIdx_absent codes code habs
  have hok := process_mk_ok codes r0 rs hall
  simp only [fieldTable, List.mem_cons, List.mem_singleton, List.not_mem_nil,
    or_false, Prod.mk.injEq] at hmem
  rcases hmem with ⟨rfl, rfl, rfl⟩ | ⟨rfl, rfl, rfl⟩ | ⟨rfl, rfl, rfl⟩ | ⟨rfl, rfl, rfl⟩ <;>
    rw [habsIdx] at hok <;>
    refine ⟨_, hok, rfl, (r0 :: rs).map _, rfl, ?_⟩ <;>
    intro e he <;>
    rw [List.mem_map] at he <;>
    obtain ⟨r, hr, rfl⟩ := he <;>
    rfl

/-- C6 witness: the amended theorem applied to a concrete dataset whose
codes array lacks `saltAlarm`. -/
theorem c6_witness :
    ∃ v, _process_device_data (mkDataset [PyVal.str "date", PyVal.str "waterUse"]
      [[PyVal.str "2024-01-02", PyVal.int 9], [PyVal.str "2024-01-01", PyVal.int 8]]) =
        .ok v ∧
      v.lookupKey "salt_alarm" = Option.some (PyVal.bool false) ∧
      ∃ hs, v.lookupKey "history" = Option.some (.list hs) ∧
        ∀ e ∈ hs, e.lookupKey "salt_alarm" = Option.some (PyVal.bool false) :=
  c6_missing_code_defaults_amended "saltAlarm" "salt_alarm" (PyVal.bool false)
    (by simp [fieldTable]) [PyVal.str "date", PyVal.str "waterUse"]
    [PyVal.str "2024-01-02", PyVal.int 9] [[PyVal.str "2024-01-01", PyVal.int 8]]
    (by decide) (by decide)

/-- C7: on the spec's worked scenario the normalizer produces exactly the
expected snapshot (values taken from `lines[0]`, flags defaulted false,
two history entries in input order); and in general, whenever the
normalizer produces a non-empty result on a well-shaped dataset, its
history list has exactly one entry per row of `lines`, in input order,
each extracted with the same code-to-index mapping. -/
theorem c7_scenario_and_history :
    _process_device_data (mkDataset c7codes c7rows) = .ok c7snap ∧
    (∀ (codes : List PyVal) (r0 : List PyVal) (rs : List (List PyVal)) (v : PyVal),
      _process_device_data (mkDataset codes (r0 :: rs)) = .ok v → v ≠ .dict [] →
      ∃ hs, v.lookupKey "history" = Option.some (.list hs) ∧
        hs.length = (r0 :: rs).length ∧
        hs = (r0 :: rs).map (fun r => specRecord (codeIdx codes "waterUse")
          (codeIdx codes "regenCount") (codeIdx codes "powerOutage")
          (codeIdx codes "saltAlarm") r)) := by
  constructor
  · rfl
  · intro codes r0 rs v h hv
    obtain ⟨hs, h1, h2⟩ := process_cons_ok_inv codes r0 rs v h hv
    refine ⟨hs, h1, ?_, h2⟩
    rw [h2]
    simp

/-- C7 witness: the general history conjunct applied to the worked
scenario itself. -/
theorem c7_witness :
    ∃ hs, c7snap.lookupKey "history" = Option.some (.list hs) ∧
      hs.length = 2 ∧
      hs = [[PyVal.str "2024-01-02", PyVal.int 1500, PyVal.int 3],
        [PyVal.str "2024-01-01", PyVal.int 1400, PyVal.int 3]].map
        (fun r => specRecord (codeIdx c7codes "waterUse") (codeIdx c7codes "regenCount")
          (codeIdx c7codes "powerOutage") (codeIdx c7codes "saltAlarm") r) :=
  c7_scenario_and_history.2 c7codes [PyVal.str "2024-01-02", PyVal.int 1500, PyVal.int 3]
    [[PyVal.str "2024-01-01", PyVal.int 1400, PyVal.int 3]] c7snap rfl
    (by simp [c7snap])

/-- C9 counterexample: the cost sensor computes
`round(liters / 1000 * price, 2)` from the unrounded quotient, so for
2345 liters at unit price 3.5 it returns 8.21, not the claim's
`2.35 × 3.5 = 8.23` obtained by rounding the cubic meters first. -/
theorem c9_counterexample :
    water_cost_native_value 2345 (7 / 2) = 821 / 100 ∧
    round2 (cubic_meter_native_value 2345 * (7 / 2)) = 823 / 100 ∧
    (821 : ℚ) / 100 ≠ 823 / 100 := by
  refine ⟨?_, ?_, by norm_num⟩
  · rw [water_cost_native_value,
      round2_eval (2345 / 1000 * (7 / 2)) 821 (by norm_num) (by norm_num)]
    norm_num
  · rw [cubic_meter_native_value,
      round2_eval (2345 / 1000) 235 (by norm_num) (by norm_num)]
    have h : ((235 : ℤ) : ℚ) = 235 := by norm_num
    rw [h, round2_eval ((235 : ℚ) / 100 * (7 / 2)) 823 (by norm_num) (by norm_num)]
    norm_num

/-- C9 (amended): the derived sensor values are pure functions of the
consumption and the configured price; the cubic-meter value is
liters / 1000 rounded to two decimals (2345 liters gives 2.35), the cost
is the unrounded quotient times the price, rounded to two decimals
(2345 liters at price 3.5 gives 8.21), and the rounding is consistent,
so recomputation is idempotent. -/
theorem c9_derived_values_amended :
    cubic_meter_native_value 2345 = 47 / 20 ∧
    water_cost_native_value 2345 (7 / 2) = 821 / 100 ∧
    (∀ liters price : ℚ,
      water_cost_native_value liters price = round2 (liters / 1000 * price)) ∧
    (∀ q : ℚ, round2 (round2 q) = round2 q) := by
  refine ⟨?_, ?_, fun liters price => rfl, round2_idem⟩
  · rw [cubic_meter_native_value,
      round2_eval (2345 / 1000) 235 (by norm_num) (by norm_num)]
    norm_num
  · rw [water_cost_native_value,
      round2_eval (2345 / 1000 * (7 / 2)) 821 (by norm_num) (by norm_num)]
    norm_num

theorem login_preserves_auth (st : ClientState) (r : LoginResult)
    (h : st.is_authenticated = true) : (login st r).2.is_authenticated = true := by
  cases r with
  | netError => simpa [login] using h
  | resp s cs =>
    by_cases hs : s ≠ 200
    · simpa [login, if_pos hs] using h
    · cases cs with
      | nil => simpa [login, if_neg hs] using h
      | cons c cs2 => simp [login, if_neg hs]

theorem fetchCore_state (st : ClientState) (env : Env) (li : Nat) (ev0 : List Event) :
    (fetchCore st env li ev0).state = st ∨
      (fetchCore st env li ev0).state = (login st (env.logins li)).2 := by
  rw [fetchCore]
  split
  · exact Or.inl rfl
  · split
    · split
      · exact Or.inr rfl
      · split
        · exact Or.inr rfl
        · split
          · exact Or.inr rfl
          · exact Or.inr rfl
    · split
      · exact Or.inl rfl
      · exact Or.inl rfl

theorem fetchCore_first_event (st : ClientState) (env : Env) (li : Nat) :
    ((fetchCore st env li []).events).head? = Option.some (Event.getCall st.cookies) := by
  rw [fetchCore]
  split
  · rfl
  · split
    · split
      · rfl
      · split
        · rfl
        · split
          · rfl
          · rfl
    · split
      · rfl
      · rfl

theorem fetchCore_retry (st : ClientState) (env : Env) (li : Nat) (ev0 : List Event)
    (s1 : Nat) (j1 : Option PyVal) (hg : env.gets 0 = .resp s1 j1) (hs1 : s1 ≠ 200) :
    (fetchCore st env li ev0).events =
      ev0 ++ [.getCall st.cookies, .loginCall,
        .getCall (login st (env.logins li)).2.cookies] ∧
    (∀ body, env.gets 1 = .resp 200 (Option.some body) →
      (fetchCore st env li ev0).result = normalizeBody body) ∧
    (∀ s2 j2, env.gets 1 = .resp s2 j2 → s2 ≠ 200 →
      (fetchCore st env li ev0).result = .dict []) ∧
    (env.gets 1 = .netError → (fetchCore st env li ev0).result = .dict []) := by
  rw [fetchCore, hg]
  dsimp only
  rw [if_pos hs1]
  cases hg2 : env.gets 1 with
  | netError =>
    exact ⟨rfl, fun body hb => GetResult.noConfusion hb,
      fun s2 j2 hb => GetResult.noConfusion hb, fun _ => rfl⟩
  | resp s2 j2 =>
    dsimp only
    by_cases h2 : s2 ≠ 200
    · rw [if_pos h2]
      refine ⟨rfl, ?_, fun s2b j2b hb hne => rfl, fun hb => GetResult.noConfusion hb⟩
      intro body hb
      injection hb with hs hj
      exact absurd hs h2
    · rw [if_neg h2]
      have hs2 : s2 = 200 := not_ne_iff.mp h2
      cases j2 with
      | none =>
        refine ⟨rfl, ?_, ?_, fun hb => GetResult.noConfusion hb⟩
        · intro body hb
          injection hb with hs hj
          exact Option.noConfusion hj
        · intro s2b j2b hb hne
          injection hb with hs hj
          exact absurd (hs ▸ hs2) hne
      | some body0 =>
        refine ⟨rfl, ?_, ?_, fun hb => GetResult.noConfusion hb⟩
        · intro body hb
          injection hb with hs hj
          injection hj with hj2
          rw [hj2]
        · intro s2b j2b hb hne
          injection hb with hs hj
          exact absurd (hs ▸ hs2) hne

theorem fetch_data_auth (st : ClientState) (env : Env)
    (h : st.is_authenticated = true) : fetch_data st env = fetchCore st env 0 [] := by
  rw [fetch_data, if_pos h]

theorem fetch_data_preauth_ok (st : ClientState) (env : Env)
    (h : st.is_authenticated = false) (hl : (login st (env.logins 0)).1 = true) :
    fetch_data st env = fetchCore (login st (env.logins 0)).2 env 1 [Event.loginCall] := by
  rw [fetch_data, if_neg (by simp [h]), if_pos hl]

theorem fetch_data_preauth_fail (st : ClientState) (env : Env)
    (h : st.is_authenticated = false) (hl : (login st (env.logins 0)).1 = false) :
    fetch_data st env = ⟨.dict [], (login st (env.logins 0)).2, [Event.loginCall]⟩ := by
  rw [fetch_data, if_neg (by simp [h]), if_neg (by simp [hl])]

/-- C2 counterexample: from an authenticated state, a failed login (here
a 200 response with zero cookies) returns `false` but leaves
`is_authenticated` true — the session does not become unauthenticated —
while the stored cookie set has already been replaced by the empty one,
so the state is left half-updated. -/
theorem c2_counterexample :
    (login ⟨[("sid", "abc")], true⟩ (.resp 200 [])).1 = false ∧
    (login ⟨[("sid", "abc")], true⟩ (.resp 200 [])).2 =
      (⟨[], true⟩ : ClientState) := ⟨rfl, rfl⟩

/-- C2 (amended): every failed `login()` call — network fault, non-200
status, or 200 with zero cookies — returns `false` (the error is a
returned failure, never an uncaught fault) and leaves `is_authenticated`
unchanged; in particular a session that was unauthenticated stays
unauthenticated.  A network fault or non-200 status leaves the whole
state untouched; a 200 response with zero cookies replaces the stored
cookie set with the empty one without changing the flag. -/
theorem c2_login_failure_amended :
    ∀ (st : ClientState) (r : LoginResult), loginFails r = true →
      (login st r).1 = false ∧
      (login st r).2.is_authenticated = st.is_authenticated ∧
      (st.is_authenticated = false → (login st r).2.is_authenticated = false) ∧
      (r = .netError → (login st r).2 = st) ∧
      (∀ s cs, r = .resp s cs → s ≠ 200 → (login st r).2 = st) ∧
      (∀ cs, r = .resp 200 cs → cs = [] → (login st r).2.cookies = []) := by
  intro st r hf
  cases r with
  | netError =>
    refine ⟨rfl, rfl, fun h => h, fun _ => rfl, fun s cs hr => ?_, fun cs hr => ?_⟩
    · exact fun _ => LoginResult.noConfusion hr
    · exact LoginResult.noConfusion hr
  | resp s cs =>
    by_cases hs : s ≠ 200
    · rw [login, if_pos hs]
      exact ⟨rfl, rfl, fun h => h, fun hr => LoginResult.noConfusion hr,
        fun _ _ _ _ => rfl, fun cs2 hr => by
          injection hr with h1 h2
          exact absurd h1 hs⟩
    · have hs2 : s = 200 := not_ne_iff.mp hs
      subst hs2
      have hcs : cs = [] := by
        simp only [loginFails, Bool.or_eq_true] at hf
        rcases hf with hf | hf
        · simp at hf
        · simpa using hf
      subst hcs
      rw [login, if_neg (by simp)]
      refine ⟨rfl, rfl, fun h => by simpa using h,
        fun hr => LoginResult.noConfusion hr, ?_, fun cs2 hr hn => rfl⟩
      intro s2 cs2 hr hne
      injection hr with h1 h2
      exact absurd h1.symm hne

/-- C2 witness: the amended theorem applied to a fresh client and a
500-status login response. -/
theorem c2_witness :
    (login initClientState (LoginResult.resp 500 [("a", "b")])).1 = false ∧
    (login initClientState (LoginResult.resp 500 [("a", "b")])).2 = initClientState :=
  ⟨(c2_login_failure_amended initClientState (.resp 500 [("a", "b")]) rfl).1,
   (c2_login_failure_amended initClientState (.resp 500 [("a", "b")]) rfl).2.2.2.2.1
     500 [("a", "b")] rfl (by decide)⟩

/-- C4: a 200 login response with at least one cookie succeeds, replaces
the stored cookie set wholesale with exactly the response's cookies and
marks the session authenticated (the resulting state is exactly
`⟨cs, true⟩`, no partial merge with the previous set), and a subsequent
`fetch_data` attaches exactly those cookies to its first data request,
whatever the environment answers. -/
theorem c4_login_success :
    ∀ (st : ClientState) (cs : List (String × String)), cs ≠ [] →
      (login st (.resp 200 cs)).1 = true ∧
      (login st (.resp 200 cs)).2 = (⟨cs, true⟩ : ClientState) ∧
      (∀ env : Env, ((fetch_data (login st (.resp 200 cs)).2 env).events).head? =
        Option.some (Event.getCall cs)) := by
  intro st cs hcs
  cases cs with
  | nil => exact absurd rfl hcs
  | cons c cs2 =>
    refine ⟨rfl, rfl, ?_⟩
    intro env
    have h1 : fetch_data (⟨c :: cs2, true⟩ : ClientState) env =
        fetchCore ⟨c :: cs2, true⟩ env 0 [] := fetch_data_auth _ env rfl
    show ((fetch_data (⟨c :: cs2, true⟩ : ClientState) env).events).head? = _
    rw [h1]
    exact fetchCore_first_event ⟨c :: cs2, true⟩ env 0

/-- C4 witness: a concrete login with one cookie followed by a fetch
against an arbitrary concrete environment. -/
theorem c4_witness :
    (login initClientState (.resp 200 [("session", "xyz")])).1 = true ∧
    (login initClientState (.resp 200 [("session", "xyz")])).2 =
      (⟨[("session", "xyz")], true⟩ : ClientState) ∧
    (∀ env : Env,
      ((fetch_data (login initClientState (.resp 200 [("session", "xyz")])).2
        env).events).head? = Option.some (Event.getCall [("session", "xyz")])) :=
  c4_login_success initClientState [("session", "xyz")] (by decide)

/-- C5: a `fetch_data` call on an unauthenticated session first calls
`login()`; when that login fails, the call returns the empty mapping at
once, having performed the login call and no data-endpoint request. -/
theorem c5_preauth_failure :
    ∀ (st : ClientState) (env : Env), st.is_authenticated = false →
      (login st (env.logins 0)).1 = false →
      fetch_data st env =
        ⟨.dict [], (login st (env.logins 0)).2, [Event.loginCall]⟩ :=
  fun st env h hl => fetch_data_preauth_fail st env h hl

/-- C5 witness: a fresh client against an environment whose login answer
is a network fault performs only the login call and returns the empty
mapping. -/
theorem c5_witness :
    fetch_data initClientState
      ⟨fun _ => LoginResult.netError, fun _ => GetResult.netError⟩ =
      ⟨.dict [], initClientState, [Event.loginCall]⟩ :=
  c5_preauth_failure initClientState
    ⟨fun _ => LoginResult.netError, fun _ => GetResult.netError⟩ rfl rfl

/-- C10: no operation of the client ever moves `is_authenticated` from
true back to false: any `login()` call — including a failed re-login or
a 200 response with zero cookies — and any `fetch_data` call leave an
authenticated client authenticated. -/
theorem c10_auth_monotone :
    (∀ (st : ClientState) (r : LoginResult), st.is_authenticated = true →
      (login st r).2.is_authenticated = true) ∧
    (∀ (st : ClientState) (env : Env), st.is_authenticated = true →
      (fetch_data st env).state.is_authenticated = true) := by
  refine ⟨login_preserves_auth, ?_⟩
  intro st env h
  rw [fetch_data_auth st env h]
  rcases fetchCore_state st env 0 [] with hst | hst
  · rw [hst]; exact h
  · rw [hst]; exact login_preserves_auth st (env.logins 0) h

/-- C10 witness: a 200 login response with zero cookies on an
authenticated client leaves the flag true. -/
theorem c10_witness :
    (login ⟨[("k", "v")], true⟩ (.resp 200 [])).2.is_authenticated = true :=
  c10_auth_monotone.1 ⟨[("k", "v")], true⟩ (.resp 200 []) rfl

/-- C3: for every `fetch_data` call whose initial data GET returns a
non-success status (≠ 200) — whether the session was already
authenticated or was just authenticated by a successful pre-login — the
client performs exactly one re-authentication `login()` followed by
exactly one retry of the same GET carrying the then-stored (refreshed)
cookies, and nothing more; a 200 retry yields the retried payload's
normalized mapping, while a non-200 or faulted retry yields the empty
mapping with no third attempt. -/
theorem c3_single_retry :
    ∀ (st : ClientState) (env : Env) (s1 : Nat) (j1 : Option PyVal),
      env.gets 0 = .resp s1 j1 → s1 ≠ 200 →
      (st.is_authenticated = true →
        (fetch_data st env).events = [.getCall st.cookies, .loginCall,
          .getCall (login st (env.logins 0)).2.cookies] ∧
        (∀ body, env.gets 1 = .resp 200 (Option.some body) →
          (fetch_data st env).result = normalizeBody body) ∧
        (∀ s2 j2, env.gets 1 = .resp s2 j2 → s2 ≠ 200 →
          (fetch_data st env).result = .dict []) ∧
        (env.gets 1 = .netError → (fetch_data st env).result = .dict [])) ∧
      (st.is_authenticated = false → (login st (env.logins 0)).1 = true →
        (fetch_data st env).events = [Event.loginCall,
          .getCall (login st (env.logins 0)).2.cookies, .loginCall,
          .getCall (login (login st (env.logins 0)).2 (env.logins 1)).2.cookies] ∧
        (∀ body, env.gets 1 = .resp 200 (Option.some body) →
          (fetch_data st env).result = normalizeBody body) ∧
        (∀ s2 j2, env.gets 1 = .resp s2 j2 → s2 ≠ 200 →
          (fetch_data st env).result = .dict []) ∧
        (env.gets 1 = .netError → (fetch_data st env).result = .dict [])) := by
  intro st env s1 j1 hg hs1
  constructor
  · intro hauth
    rw [fetch_data_auth st env hauth]
    have h := fetchCore_retry st env 0 [] s1 j1 hg hs1
    exact ⟨h.1, h.2.1, h.2.2.1, h.2.2.2⟩
  · intro hauth hl
    rw [fetch_data_preauth_ok st env hauth hl]
    have h := fetchCore_retry (login st (env.logins 0)).2 env 1 [Event.loginCall]
      s1 j1 hg hs1
    exact ⟨h.1, h.2.1, h.2.2.1, h.2.2.2⟩

/-- C3 witness: on the concrete environment the call performs exactly
GET, login, GET (the retry with the fresh cookie) and returns the
retried payload's normalized mapping. -/
theorem c3_witness :
    (fetch_data ⟨[("old", "0")], true⟩ c3Env).events =
      [Event.getCall [("old", "0")], Event.loginCall,
        Event.getCall [("fresh", "1")]] ∧
    (fetch_data ⟨[("old", "0")], true⟩ c3Env).result = normalizeBody c3Body :=
  ⟨((c3_single_retry ⟨[("old", "0")], true⟩ c3Env 403 Option.none rfl
      (by decide)).1 rfl).1,
   ((c3_single_retry ⟨[("old", "0")], true⟩ c3Env 403 Option.none rfl
      (by decide)).1 rfl).2.1 c3Body rfl⟩

theorem dictFind_none_any (fs : List (String × PyVal)) (k : String)
    (h : dictFind fs k = Option.none) : (fs.any fun p => p.1 == k) = false := by
  cases hf : fs.find? (fun p => p.1 == k) with
  | none =>
    rw [List.any_eq_false]
    intro x hx
    simpa using List.find?_eq_none.mp hf x hx
  | some p =>
    rw [dictFind, hf] at h
    exact Option.noConfusion h

theorem dictFind_some_any (fs : List (String × PyVal)) (k : String) (v : PyVal)
    (h : dictFind fs k = Option.some v) : (fs.any fun p => p.1 == k) = true := by
  cases hf : fs.find? (fun p => p.1 == k) with
  | none =>
    rw [dictFind, hf] at h
    exact Option.noConfusion h
  | some p =>
    rw [List.any_eq_true]
    exact ⟨p, List.mem_of_find?_eq_some hf,
      @List.find?_some _ (fun q => q.1 == k) p fs hf⟩

theorem dictFind_some_isEmpty (fs : List (String × PyVal)) (k : String) (v : PyVal)
    (h : dictFind fs k = Option.some v) : fs.isEmpty = false := by
  cases fs with
  | nil => simp [dictFind] at h
  | cons a as => rfl

theorem degenerate_normalize (d : PyVal) (h : datasetDegenerate d = true) :
    catchEmpty (_process_device_data d) = .dict [] := by
  cases d with
  | null => rfl
  | bool b =>
    cases b with
    | false => rfl
    | true => rfl
  | int n =>
    rw [_process_device_data]
    by_cases hn : ((n != 0) : Bool) = false
    · rw [if_pos (show (PyVal.int n).truthy = false from hn)]
      rfl
    · rw [if_neg (show ¬ (PyVal.int n).truthy = false from hn)]
      rfl
  | str s =>
    rw [_process_device_data]
    by_cases h0 : ((s != "") : Bool) = false
    · rw [if_pos (show (PyVal.str s).truthy = false from h0)]
      rfl
    · rw [if_neg (show ¬ (PyVal.str s).truthy = false from h0)]
      dsimp only [pyContains]
      by_cases h1 : (((s.splitOn "deviceDataHistory").length != 1) : Bool) = false
      · rw [if_pos h1]
        rfl
      · rw [if_neg h1]
        rfl
  | list xs =>
    rw [_process_device_data]
    by_cases h0 : ((!xs.isEmpty) : Bool) = false
    · rw [if_pos (show (PyVal.list xs).truthy = false from h0)]
      rfl
    · rw [if_neg (show ¬ (PyVal.list xs).truthy = false from h0)]
      dsimp only [pyContains]
      by_cases h1 : ((xs.any fun x => x.eqStr "deviceDataHistory") : Bool) = false
      · rw [if_pos h1]
        rfl
      · rw [if_neg h1]
        rfl
  | dict fs =>
    cases hdd : dictFind fs "deviceDataHistory" with
    | none =>
      have hany := dictFind_none_any fs "deviceDataHistory" hdd
      by_cases h0 : fs.isEmpty = true
      · rw [_process_device_data,
          if_pos (show (PyVal.dict fs).truthy = false by simp [PyVal.truthy, h0])]
        rfl
      · rw [_process_device_data,
          if_neg (show ¬ (PyVal.dict fs).truthy = false by simp [PyVal.truthy, h0])]
        dsimp only [pyContains]
        rw [if_pos hany]
        rfl
    | some hv =>
      have hany := dictFind_some_any fs "deviceDataHistory" hv hdd
      have hne := dictFind_some_isEmpty fs "deviceDataHistory" hv hdd
      have hget : pyGet (.dict fs) "deviceDataHistory" (.dict []) = .ok hv := by
        simp [pyGet, hdd]
      rw [_process_device_data,
        if_neg (show ¬ (PyVal.dict fs).truthy = false by simp [PyVal.truthy, hne])]
      dsimp only [pyContains]
      rw [if_neg (by simp [hany]), hget]
      dsimp only
      cases hv with
      | null => rfl
      | bool b => rfl
      | int n => rfl
      | str s2 =>
        dsimp only [pyContains]
        by_cases h2 : (((s2.splitOn "lines").length != 1) : Bool) = false
        · rw [if_pos h2]
          rfl
        · rw [if_neg h2]
          rfl
      | list ys =>
        dsimp only [pyContains]
        by_cases h2 : ((ys.any fun x => x.eqStr "lines") : Bool) = false
        · rw [if_pos h2]
          rfl
        · rw [if_neg h2]
          rfl
      | dict hfs =>
        cases hlines : dictFind hfs "lines" with
        | none =>
          have hany2 := dictFind_none_any hfs "lines" hlines
          dsimp only [pyContains]
          rw [if_pos hany2]
          rfl
        | some lv =>
          have hlv : lv = .list [] := by
            simp only [datasetDegenerate, hdd, hlines] at h
            cases lv with
            | list xs =>
              cases xs with
              | nil => rfl
              | cons a as => simp at h
            | null => simp at h
            | bool b => simp at h
            | int n => simp at h
            | str s3 => simp at h
            | dict gs => simp at h
          subst hlv
          have hany2 := dictFind_some_any hfs "lines" (.list []) hlines
          dsimp only [pyContains]
          rw [if_neg (by simp [hany2])]
          dsimp only [pyGet]
          rw [hlines]
          rfl

/-- C8: a `fetch_data` call whose data GET succeeds with a JSON body in
which the `dataset` object is absent or malformed, or whose
`deviceDataHistory` is missing or malformed, or whose `lines` is absent
or an empty array, returns the empty mapping (no keys) — never an error
and never a partial snapshot. -/
theorem c8_degenerate_empty :
    ∀ (st : ClientState) (env : Env) (fs : List (String × PyVal)),
      st.is_authenticated = true →
      env.gets 0 = .resp 200 (Option.some (.dict fs)) →
      datasetDegenerate ((dictFind fs "dataset").getD (.dict [])) = true →
      (fetch_data st env).result = .dict [] := by
  intro st env fs hauth hg hdeg
  rw [fetch_data_auth st env hauth, fetchCore, hg]
  dsimp only
  rw [if_neg (show ¬ (200 : Nat) ≠ 200 from fun hc => hc rfl)]
  show normalizeBody (.dict fs) = .dict []
  rw [normalizeBody]
  exact degenerate_normalize _ hdeg

/-- C8 witness: a 200 data response whose body lacks the `dataset` key
yields the empty mapping. -/
theorem c8_witness :
    (fetch_data ⟨[("c", "1")], true⟩
      ⟨fun _ => LoginResult.netError,
       fun _ => GetResult.resp 200 (Option.some (.dict []))⟩).result = .dict [] :=
  c8_degenerate_empty ⟨[("c", "1")], true⟩
    ⟨fun _ => LoginResult.netError,
     fun _ => GetResult.resp 200 (Option.some (.dict []))⟩ [] rfl rfl rfl
